import Mathlib

/-!
Verification of the connectivity-and-telemetry engine of
`src/hardware/weather_station_280.py` (a MicroPython weather-station
firmware) against its natural-language specification.

The Python source is shallowly embedded: each function becomes an
executable Lean definition over explicit state.  Exceptions raised by
external collaborators (Wi-Fi driver, MQTT transport, BMP280 sensor
driver) are modelled as explicit outcome values supplied to the embedded
functions; float measurement values are modelled as exact rationals, and
the builtin 2-decimal rounding as round-half-to-even on ℚ.
-/

namespace WeatherStation

/-- The Python builtin `round(x, 2)` (bankers rounding, half to even), on exact
rationals.  Used by `get_sensor_measurements` (source lines 111 to 112). -/
def pyRound2 (x : ℚ) : ℚ :=
  ((if x * 100 - (⌊x * 100⌋ : ℚ) > 1/2 then ⌊x * 100⌋ + 1
    else if x * 100 - (⌊x * 100⌋ : ℚ) < 1/2 then ⌊x * 100⌋
    else if ⌊x * 100⌋ % 2 = 0 then ⌊x * 100⌋
    else ⌊x * 100⌋ + 1 : ℤ) : ℚ) / 100

/-! ## Wi-Fi acquisition: `connect_wifi` (source lines 35 to 49) -/

/-- The while loop of `connect_wifi`:
`while not wlan.isconnected() and retry_count < 5:` — each executed
iteration logs an attempt, sleeps 1 second and increments `retry_count`.
`isconn k` is the value `wlan.isconnected()` returns when `retry_count`
is `k` (the loop polls it at each condition check).  Returns the final
`retry_count` together with the list of sleeps performed (in seconds).
The fuel `6` exceeds the retry bound, so the loop always exits through
its own condition. -/
def connectWifiLoop (isconn : Nat → Bool) : Nat → Nat → Nat × List Nat
  | 0, retry => (retry, [])
  | fuel + 1, retry =>
    if isconn retry = false ∧ retry < 5 then
      let next := connectWifiLoop isconn fuel (retry + 1)
      (next.1, 1 :: next.2)
    else (retry, [])

/-- Result of one `connect_wifi` call: number of loop iterations executed
(each one is a logged join attempt with a 1-second sleep), the sleep
trace, and the returned boolean. -/
structure WifiRun where
  attempts : Nat
  sleeps : List Nat
  connected : Bool
  deriving DecidableEq

/-- `connect_wifi(ssid, password)`: calls `wlan.connect` once, runs the
bounded polling loop, then returns `wlan.isconnected()` (True branch logs
and returns True, else returns False).  Since `retry_count` is incremented
exactly once per executed iteration starting from 0, the final
`retry_count` equals the number of attempts performed. -/
def connect_wifi (isconn : Nat → Bool) : WifiRun :=
  let run := connectWifiLoop isconn 6 0
  ⟨run.1, run.2, isconn run.1⟩

/-- The branch taken by `main` (source lines 230 to 233) on the result of
`connect_wifi(SSID, PASSWORD)`: on failure it starts the fallback access
point (`create_ap`) and the configuration server (`serve_web`); on
success it proceeds to the MQTT connection. -/
inductive MainPath where
  | fallbackAccessPoint
  | mqttPublishing
  deriving DecidableEq

/-- The `if not connect_wifi(...)` dispatch in `main`. -/
def mainNetworkPath (wifiConnected : Bool) : MainPath :=
  if wifiConnected then .mqttPublishing else .fallbackAccessPoint

/-- C8: when the network never becomes joined, `connect_wifi` performs
exactly 5 join attempts, sleeping 1 second after each poll, and returns
`False`, upon which `main` takes the fallback access-point path. -/
theorem connect_wifi_five_attempts_then_fallback
    (isconn : Nat → Bool) (h : ∀ k, isconn k = false) :
    connect_wifi isconn = ⟨5, [1, 1, 1, 1, 1], false⟩ ∧
      mainNetworkPath (connect_wifi isconn).connected = .fallbackAccessPoint := by
  have hrun : connect_wifi isconn = ⟨5, [1, 1, 1, 1, 1], false⟩ := by
    simp [connect_wifi, connectWifiLoop, h]
  exact ⟨hrun, by rw [hrun]; rfl⟩

/-- Witness for C8: the always-disconnected network instantiates the
hypothesis. -/
theorem connect_wifi_five_attempts_then_fallback_witness :
    connect_wifi (fun _ => false) = ⟨5, [1, 1, 1, 1, 1], false⟩ ∧
      mainNetworkPath (connect_wifi (fun _ => false)).connected = .fallbackAccessPoint :=
  connect_wifi_five_attempts_then_fallback (fun _ => false) (fun _ => rfl)

/-! ## Configuration web server: `serve_web` (source lines 72 to 106)

Request texts are modelled as `List Char`.  The Python `str.find` and
slicing are embedded exactly (`find` returns `-1` when the needle is
absent; slice indices may be negative, counting from the end, and are
clamped — slicing never raises). -/

/-- Helper for `pyFind`: least index `i ≤ i0 + fuel - 1`, `i ≥ i0`, at
which `sub` occurs in `s`. -/
def findAux (s sub : List Char) (i : Nat) : Nat → Option Nat
  | 0 => none
  | fuel + 1 =>
    if sub.isPrefixOf (s.drop i) then some i
    else findAux s sub (i + 1) fuel

/-- Python `s.find(sub, start)` for `start ≥ 0`: index of the first
occurrence of `sub` at or after `start`, or `-1`.  (Every `start` the
source passes is nonnegative: `find(...) + 5 ≥ 4` and
`find(...) + 9 ≥ 8`.) -/
def pyFind (s sub : List Char) (start : Nat) : Int :=
  match findAux s sub start (s.length + 1 - start) with
  | some i => (i : Int)
  | none => -1

/-- Python `sub in s`. -/
def pyContains (s sub : List Char) : Bool :=
  (findAux s sub 0 (s.length + 1)).isSome

/-- Python slice-index resolution: a negative index counts from the end;
the result is clamped to `[0, len]`. -/
def pyIdx (len : Nat) (i : Int) : Nat :=
  let j := if i < 0 then i + len else i
  if j < 0 then 0 else min j.toNat len

/-- Python `s[a:b]` (characters `a, …, b-1` after index resolution;
empty when the resolved bounds cross).  Total: slicing never raises. -/
def pySlice (s : List Char) (a b : Int) : List Char :=
  (s.take (pyIdx s.length b)).drop (pyIdx s.length a)

/-- What the body of the `serve_web` accept loop does with one received
request (source lines 85 to 104): a request containing `POST` has
`ssid` and `password` extracted by marker arithmetic, `connect_wifi` is
called on the extracted values, a 200 response is sent and the loop
breaks; any other request falls through the `if` — no response, no
close, and the loop accepts the next connection. -/
inductive RequestAction where
  | noResponse
  | joinAttempt (ssid password : List Char)
  deriving DecidableEq

/-- `request_str` contains `POST`. -/
def isPostReq (request_str : List Char) : Bool :=
  pyContains request_str ("POST".toList)

/-- The marker arithmetic of `serve_web` (source lines 85 to 97),
verbatim: `ssid_start = find("ssid=") + 5`, `ssid_end = find("&",
ssid_start)`, `password_start = find("password=") + 9`, `password_end =
find(" HTTP", password_start)`, then both values are sliced out and
`connect_wifi(ssid, password)` is attempted.  There is no rejection
branch: every request containing `POST` reaches the join attempt. -/
def handleRequest (request_str : List Char) : RequestAction :=
  if isPostReq request_str then
    let ssid_start : Int := pyFind request_str ("ssid=".toList) 0 + 5
    let ssid_end : Int := pyFind request_str ("&".toList) ssid_start.toNat
    let password_start : Int := pyFind request_str ("password=".toList) 0 + 9
    let password_end : Int := pyFind request_str (" HTTP".toList) password_start.toNat
    .joinAttempt (pySlice request_str ssid_start ssid_end)
      (pySlice request_str password_start password_end)
  else .noResponse

/-- Observable result of one `serve_web` run over a stream of incoming
connections: how many connections were accepted (one `recv` each), which
join attempts were made (extracted ssid, extracted password, outcome of
the `connect_wifi` call on them), and whether the loop was exited via
`break` (`true`) or the modelled stream ran out while the loop was still
accepting (`false`). -/
structure ServeWebRun where
  accepts : Nat
  joins : List (List Char × List Char × Bool)
  exited : Bool
  deriving DecidableEq

/-- The `while True:` accept loop of `serve_web`.  Each element of the
input supplies one incoming connection: its request text and the result
`connect_wifi` would return for the credentials extracted from it.  The
`break` sits inside the `POST`-membership block, so only a
request containing `POST` ends the loop. -/
def serve_web : List (List Char × Bool) → ServeWebRun
  | [] => ⟨0, [], false⟩
  | (req, joinOk) :: rest =>
    match handleRequest req with
    | .joinAttempt ssid pw => ⟨1, [(ssid, pw, joinOk)], true⟩
    | .noResponse =>
      let r := serve_web rest
      ⟨r.accepts + 1, r.joins, r.exited⟩

/-- A GET request: falls through the `POST` test. -/
def getRequest : List Char := "GET /index HTTP/1.1".toList

/-- A well-formed credential POST. -/
def postRequest : List Char :=
  "POST /configure HTTP/1.1 ssid=MyNet&password=secret HTTP/1.1".toList

/-- A POST whose body is missing the `password=` marker. -/
def malformedPostRequest : List Char :=
  "POST /configure HTTP/1.1 ssid=MyNet&x=1".toList

/-- Counterexample to C4: a run whose first incoming request is a GET.
`serve_web` sends no response to it and loops back: it accepts a second
connection, refuting "accepts exactly one client connection … it never
loops back to accept a second connection". -/
theorem serve_web_accepts_second_connection_on_get :
    (serve_web [(getRequest, false), (postRequest, true)]).accepts = 2 := by decide

/-- C4 (amended): `serve_web` accepts one connection and reads one
request per incoming connection, looping while the requests do not
contain `POST`; it exits (via `break`) after handling the first request
containing `POST`, whether the resulting join succeeds or fails, and
accepts no further connection after it. -/
theorem serve_web_exits_after_first_post
    (pre post : List (List Char × Bool)) (req : List Char) (joinOk : Bool)
    (hpre : ∀ x ∈ pre, isPostReq x.1 = false) (hreq : isPostReq req = true) :
    (serve_web (pre ++ (req, joinOk) :: post)).accepts = pre.length + 1 ∧
      (serve_web (pre ++ (req, joinOk) :: post)).exited = true := by
  induction pre with
  | nil =>
    simp only [List.nil_append, List.length_nil]
    unfold serve_web handleRequest
    rw [hreq]
    simp
  | cons hd tl ih =>
    have hhd : isPostReq hd.1 = false := hpre hd (by simp)
    have htl : ∀ x ∈ tl, isPostReq x.1 = false := fun x hx => hpre x (by simp [hx])
    obtain ⟨ih1, ih2⟩ := ih htl
    cases hd with
    | mk hreq0 hok0 =>
      simp only [List.cons_append]
      unfold serve_web handleRequest
      rw [show isPostReq hreq0 = false from hhd]
      simp only [List.length_cons]
      refine ⟨?_, ih2⟩
      simp [ih1]

/-- Witness for C4 (amended): one GET followed by a failing-join POST —
two accepts, then exit. -/
theorem serve_web_exits_after_first_post_witness :
    (serve_web ([(getRequest, false)] ++ (postRequest, false) :: [])).accepts =
        [(getRequest, false)].length + 1 ∧
      (serve_web ([(getRequest, false)] ++ (postRequest, false) :: [])).exited = true :=
  serve_web_exits_after_first_post [(getRequest, false)] [] postRequest false
    (by decide) (by decide)

/-- Counterexample to C3: a POST request whose body is missing the
`password=` marker is not rejected.  `find` returns `-1`, so
`password_start = 8`, and the slice `request_str[8:find(" HTTP", 8)]`
yields the garbage value `nfigure` (from `/configure`); `serve_web`
attempts a network join with `ssid=MyNet`, `password=nfigure`, refuting
"rejects the malformed input rather than extracting credential values
and attempting a network join with them". -/
theorem serve_web_joins_on_missing_password_marker :
    handleRequest malformedPostRequest =
        .joinAttempt ("MyNet".toList) ("nfigure".toList) ∧
      (serve_web [(malformedPostRequest, false)]).joins =
        [(("MyNet".toList), ("nfigure".toList), false)] := by decide

/-- C3 (amended): on a POST request missing the `password=` marker the
parser does not crash — `find` returns `-1` and slicing is total — but
it does not reject the request either: it still reaches the join
attempt, with the password sliced from the fixed index `8` (that is,
`-1 + 9`) up to the first ` HTTP` occurrence at or after `8`. -/
theorem serve_web_missing_password_marker_still_joins
    (request_str : List Char)
    (hpost : isPostReq request_str = true)
    (hmiss : pyFind request_str ("password=".toList) 0 = -1) :
    handleRequest request_str =
      .joinAttempt
        (pySlice request_str (pyFind request_str ("ssid=".toList) 0 + 5)
          (pyFind request_str ("&".toList)
            (pyFind request_str ("ssid=".toList) 0 + 5).toNat))
        (pySlice request_str 8 (pyFind request_str (" HTTP".toList) 8)) := by
  unfold handleRequest
  rw [hpost, hmiss]
  rfl

/-- Witness for C3 (amended): the malformed POST instantiates both
hypotheses. -/
theorem serve_web_missing_password_marker_still_joins_witness :
    handleRequest malformedPostRequest =
      .joinAttempt
        (pySlice malformedPostRequest
          (pyFind malformedPostRequest ("ssid=".toList) 0 + 5)
          (pyFind malformedPostRequest ("&".toList)
            (pyFind malformedPostRequest ("ssid=".toList) 0 + 5).toNat))
        (pySlice malformedPostRequest 8
          (pyFind malformedPostRequest (" HTTP".toList) 8)) :=
  serve_web_missing_password_marker_still_joins malformedPostRequest
    (by decide) (by decide)

/-! ## Sensor sampling and small payloads (source lines 109 to 206) -/

/-- Modelled from the spec: `MQTT_TOPIC` comes from `config.py`, which
is not among the repository sources; the spec says small payloads are
published "to named topics (one topic for small payloads, a distinct
topic for batched/bulk payloads)". -/
def MQTT_TOPIC : String := "weather/small"

/-- Modelled from the spec: `MQTT_TOPIC_DATA_COLLECTION` comes from
`config.py`, which is not among the repository sources; the spec says
batched payloads go to a topic distinct from the small-payload topic. -/
def MQTT_TOPIC_DATA_COLLECTION : String := "weather/bulk"

/-- `get_sensor_measurements(sensor)` (source lines 109 to 116): reads
`sensor.measurements` once — the driver result is the pair
the pair of the `t` and `p` entries of the measurements dict — and
returns both values rounded to 2 decimal
places.  A driver exception propagates (no handler here); callers model
that case with `Option`. -/
def get_sensor_measurements (measurements : ℚ × ℚ) : ℚ × ℚ :=
  (pyRound2 measurements.1, pyRound2 measurements.2)

/-- The payload dictionary with keys `temperature` and `pressure`;
`α = ℚ` for single measurements, `α = List ℚ` for batches. -/
structure Payload (α : Type) where
  temperature : α
  pressure : α
  deriving DecidableEq

/-- `format_data(temperature_data, pressure_data)` (source lines 119 to
124): pure structural mapping. -/
def format_data {α : Type} (temperature_data pressure_data : α) : Payload α :=
  ⟨temperature_data, pressure_data⟩

/-- `process_data(sensor)` (source lines 127 to 136): calls
`get_sensor_measurements` inside `try`; on a driver exception
(`reading = none`) it returns `None`, otherwise the formatted data. -/
def process_data (reading : Option (ℚ × ℚ)) : Option (Payload ℚ) :=
  match reading with
  | some m =>
    let measured := get_sensor_measurements m
    some (format_data measured.1 measured.2)
  | none => none

/-- The timer callback installed by `create_payload_timer` (source lines
193 to 196), for one tick: `data = process_data(sensor)`, then
`if data: send_mqtt(mqtt_client, MQTT_TOPIC, data)`.  `data` is either
`None` (falsy) or a two-key dict (truthy), so the test is exactly
`isSome`.  Returns the messages handed to `send_mqtt` on this tick. -/
def payloadTick (reading : Option (ℚ × ℚ)) : List (String × Payload ℚ) :=
  match process_data reading with
  | some data => [(MQTT_TOPIC, data)]
  | none => []

/-- A run of the periodic callback: one driver result per tick, in
order; each tick reads the sensor exactly once (the callback contains a
single `process_data` call, hence a failed read is never retried within
its tick). -/
def runSmallTicks : List (Option (ℚ × ℚ)) → List (String × Payload ℚ)
  | [] => []
  | r :: rest => payloadTick r ++ runSmallTicks rest

/-- A recurring timer as installed by `create_payload_timer`: its period
in milliseconds and the publish trace of its callback over a tick
sequence. -/
structure TimerSpec where
  period : Nat
  run : List (Option (ℚ × ℚ)) → List (String × Payload ℚ)

/-- `create_payload_timer(mqtt_client, interval)` (source lines 192 to
200). -/
def create_payload_timer (interval : Nat) : TimerSpec :=
  ⟨interval, runSmallTicks⟩

/-- `frequent_small_payload` (source lines 202 to 203): 1-second period. -/
def frequent_small_payload : TimerSpec := create_payload_timer 1000

/-- `infrequent_small_payload` (source lines 205 to 206): 60-second
period. -/
def infrequent_small_payload : TimerSpec := create_payload_timer 60000

/-- Rounding to 2 decimals, abstractly: `pyRound2 x` is an integer
number of hundredths within half a hundredth of `x`. -/
theorem pyRound2_centi (x : ℚ) :
    ∃ k : ℤ, pyRound2 x = (k : ℚ) / 100 ∧ |x - (k : ℚ) / 100| ≤ 1 / 200 := by
  have hfl : (⌊x * 100⌋ : ℚ) ≤ x * 100 := Int.floor_le (x * 100)
  have hfu : x * 100 < (⌊x * 100⌋ : ℚ) + 1 := Int.lt_floor_add_one (x * 100)
  unfold pyRound2
  split_ifs with h1 h2 h3
  · exact ⟨⌊x * 100⌋ + 1, rfl,
      by rw [abs_le]; constructor <;> [push_cast; push_cast] <;> nlinarith⟩
  · exact ⟨⌊x * 100⌋, rfl, by rw [abs_le]; constructor <;> nlinarith⟩
  · exact ⟨⌊x * 100⌋, rfl, by rw [abs_le]; constructor <;> nlinarith⟩
  · exact ⟨⌊x * 100⌋ + 1, rfl,
      by rw [abs_le]; constructor <;> [push_cast; push_cast] <;> nlinarith⟩

/-- Concrete evaluation of one FrequentSmall tick on the reading
`(21.456, 1013.256)`. -/
theorem payloadTick_eval :
    payloadTick (some (21.456, 1013.256)) =
      [(MQTT_TOPIC, format_data (21.46 : ℚ) (1013.26 : ℚ))] := by
  have ht : pyRound2 (21.456 : ℚ) = (21.46 : ℚ) := by norm_num [pyRound2]
  have hp : pyRound2 (1013.256 : ℚ) = (1013.26 : ℚ) := by norm_num [pyRound2]
  simp [payloadTick, process_data, get_sensor_measurements, ht, hp]

/-- C7: `get_sensor_measurements` returns the driver values rounded to 2
decimal places (each an integer number of hundredths within half a
hundredth of the raw value), and under the FrequentSmall strategy
(1000 ms period) a sensor that always reads `(21.456, 1013.256)` makes
every tick publish `temperature 21.46, pressure 1013.26` to the
small-payload topic. -/
theorem frequent_small_rounds_and_publishes :
    (∀ t p : ℚ, ∃ kt kp : ℤ,
        get_sensor_measurements (t, p) = ((kt : ℚ) / 100, (kp : ℚ) / 100) ∧
        |t - (kt : ℚ) / 100| ≤ 1 / 200 ∧ |p - (kp : ℚ) / 100| ≤ 1 / 200) ∧
    frequent_small_payload.period = 1000 ∧
    (∀ n : Nat,
      frequent_small_payload.run (List.replicate n (some (21.456, 1013.256))) =
        List.replicate n (MQTT_TOPIC, format_data (21.46 : ℚ) (1013.26 : ℚ))) := by
  refine ⟨?_, rfl, ?_⟩
  · intro t p
    obtain ⟨kt, hkt, hkta⟩ := pyRound2_centi t
    obtain ⟨kp, hkp, hkpa⟩ := pyRound2_centi p
    exact ⟨kt, kp, by simp [get_sensor_measurements, hkt, hkp], hkta, hkpa⟩
  · intro n
    induction n with
    | zero => rfl
    | succ m ih =>
      simp only [List.replicate_succ]
      show payloadTick (some (21.456, 1013.256)) ++
          frequent_small_payload.run (List.replicate m (some (21.456, 1013.256))) = _
      rw [payloadTick_eval, ih]
      rfl

/-- C9: a driver exception on a tick makes `process_data` return the
distinguished failure value `None` instead of propagating, the tick
publishes nothing, and — each tick consuming exactly one driver result —
the read is not retried within the tick: a run is the concatenation of
its ticks, and the failed tick contributes the empty publish trace.
This callback serves both the FrequentSmall and InfrequentSmall
strategies. -/
theorem failed_read_publishes_nothing :
    process_data none = none ∧
    payloadTick none = [] ∧
    (∀ pre post : List (Option (ℚ × ℚ)),
      runSmallTicks (pre ++ none :: post) =
        runSmallTicks pre ++ runSmallTicks post) ∧
    frequent_small_payload.run = runSmallTicks ∧
    infrequent_small_payload.run = runSmallTicks := by
  refine ⟨rfl, rfl, ?_, rfl, rfl⟩
  intro pre post
  induction pre with
  | nil => simp [runSmallTicks, payloadTick, process_data]
  | cons r rest ih => simp [runSmallTicks, ih]

/-! ## Batched strategy: `infrequent_large_payload` (source lines 208 to 224) -/

/-- The two closure-captured buffers of `infrequent_large_payload`. -/
structure BatchState where
  temperature_data_buffer : List ℚ
  pressure_data_buffer : List ℚ
  deriving DecidableEq

/-- First half of the batched callback:
`temperature, pressure = get_sensor_measurements(sensor)` followed by
`if temperature and pressure:` — Python float truthiness, i.e. both
rounded values nonzero — appending to both buffers. -/
def largeAppend (st : BatchState) (m : ℚ × ℚ) : BatchState :=
  if (get_sensor_measurements m).1 ≠ 0 ∧ (get_sensor_measurements m).2 ≠ 0 then
    ⟨st.temperature_data_buffer ++ [(get_sensor_measurements m).1],
      st.pressure_data_buffer ++ [(get_sensor_measurements m).2]⟩
  else st

/-- Second half of the batched callback:
`if len(temperature_data_buffer) >= 60:` — format the batch, hand it to
`send_mqtt` on the bulk topic, then clear both buffers (immediately, not
after a delivery acknowledgment). -/
def largeFlush (st : BatchState) : BatchState × Option (String × Payload (List ℚ)) :=
  if st.temperature_data_buffer.length ≥ 60 then
    (⟨[], []⟩, some (MQTT_TOPIC_DATA_COLLECTION,
      format_data st.temperature_data_buffer st.pressure_data_buffer))
  else (st, none)

/-- One timer callback of `infrequent_large_payload` on one driver
result.  `none` models the sensor driver raising: the callback calls
`get_sensor_measurements` with no handler, so the exception leaves the
callback and the buffers are untouched. -/
def largeTick (st : BatchState) (reading : Option (ℚ × ℚ)) :
    BatchState × Option (String × Payload (List ℚ)) :=
  match reading with
  | none => (st, none)
  | some m => largeFlush (largeAppend st m)

/-- A run of the batched callback over a tick sequence, returning the
final buffer state and the batch messages handed to `send_mqtt`. -/
def runLarge (st : BatchState) :
    List (Option (ℚ × ℚ)) → BatchState × List (String × Payload (List ℚ))
  | [] => (st, [])
  | r :: rest =>
    let step := largeTick st r
    let next := runLarge step.1 rest
    (next.1, step.2.toList ++ next.2)

/-- `infrequent_large_payload` run from its initial empty buffers. -/
def infrequent_large_payload (readings : List (Option (ℚ × ℚ))) :
    BatchState × List (String × Payload (List ℚ)) :=
  runLarge ⟨[], []⟩ readings

/-- The batch buffer invariant claimed by the spec: equal lengths,
never exceeding 60. -/
def batchInv (st : BatchState) : Prop :=
  st.temperature_data_buffer.length = st.pressure_data_buffer.length ∧
    st.temperature_data_buffer.length ≤ 60

/-- One callback preserves the strengthened invariant (equal lengths,
at most 59 elements once the callback has completed). -/
theorem largeTick_inv (st : BatchState) (r : Option (ℚ × ℚ))
    (h : st.temperature_data_buffer.length = st.pressure_data_buffer.length ∧
      st.temperature_data_buffer.length ≤ 59) :
    (largeTick st r).1.temperature_data_buffer.length =
        (largeTick st r).1.pressure_data_buffer.length ∧
      (largeTick st r).1.temperature_data_buffer.length ≤ 59 := by
  obtain ⟨h1, h2⟩ := h
  cases r with
  | none => exact ⟨h1, h2⟩
  | some m =>
    rw [show largeTick st (some m) = largeFlush (largeAppend st m) from rfl]
    unfold largeFlush largeAppend
    split_ifs <;> simp_all <;> omega

/-- Witness for `largeTick_inv`: the empty state and a normal reading. -/
theorem largeTick_inv_witness :
    (largeTick ⟨[], []⟩ none).1.temperature_data_buffer.length =
        (largeTick ⟨[], []⟩ none).1.pressure_data_buffer.length ∧
      (largeTick ⟨[], []⟩ none).1.temperature_data_buffer.length ≤ 59 :=
  largeTick_inv ⟨[], []⟩ none ⟨rfl, by simp⟩

/-- The strengthened invariant holds along any run. -/
theorem runLarge_inv (readings : List (Option (ℚ × ℚ))) :
    ∀ st : BatchState,
      st.temperature_data_buffer.length = st.pressure_data_buffer.length ∧
        st.temperature_data_buffer.length ≤ 59 →
      (runLarge st readings).1.temperature_data_buffer.length =
          (runLarge st readings).1.pressure_data_buffer.length ∧
        (runLarge st readings).1.temperature_data_buffer.length ≤ 59 := by
  induction readings with
  | nil => exact fun st h => h
  | cons r rest ih =>
    intro st h
    exact ih (largeTick st r).1 (largeTick_inv st r h)

/-- Witness for `runLarge_inv`: the empty run from empty buffers. -/
theorem runLarge_inv_witness :
    (runLarge ⟨[], []⟩ []).1.temperature_data_buffer.length =
        (runLarge ⟨[], []⟩ []).1.pressure_data_buffer.length ∧
      (runLarge ⟨[], []⟩ []).1.temperature_data_buffer.length ≤ 59 :=
  runLarge_inv [] ⟨[], []⟩ ⟨rfl, by simp⟩

/-- C6: at every observation point between callbacks of the batched
strategy — i.e. after any tick sequence run from the initial empty
buffers — the two buffers have equal length, never exceeding 60; and on
any tick that issues a batch publish, the post-tick buffers are empty
(cleared regardless of delivery outcome). -/
theorem batch_buffer_invariant :
    (∀ readings : List (Option (ℚ × ℚ)),
        batchInv (infrequent_large_payload readings).1) ∧
    (∀ (st : BatchState) (r : Option (ℚ × ℚ)),
        (largeTick st r).2 = none ∨
          (largeTick st r).1 = ⟨[], []⟩) := by
  constructor
  · intro readings
    have h := runLarge_inv readings ⟨[], []⟩ ⟨rfl, by simp⟩
    exact ⟨h.1, le_trans h.2 (by norm_num)⟩
  · intro st r
    cases r with
    | none => exact Or.inl rfl
    | some m =>
      rw [show largeTick st (some m) = largeFlush (largeAppend st m) from rfl]
      unfold largeFlush
      split_ifs <;> simp

/-- Counter-evaluation for C5, at the failing input: a tick whose sensor
read succeeds with temperature `0` (freezing point) and pressure
`1013.25` is dropped by the float-truthiness test
`if temperature and pressure:` — the buffers stay empty — whereas a
nonzero reading on an otherwise identical tick is appended.  This
contradicts "every successful reading is buffered, whatever its numeric
value". -/
theorem zero_reading_not_buffered :
    largeTick ⟨[], []⟩ (some (0, 1013.25)) = (⟨[], []⟩, none) ∧
      largeTick ⟨[], []⟩ (some (21.456, 1013.25)) =
        (⟨[(21.46 : ℚ)], [(1013.25 : ℚ)]⟩, none) := by
  have h0 : pyRound2 (0 : ℚ) = 0 := by norm_num [pyRound2]
  have ht : pyRound2 (21.456 : ℚ) = (21.46 : ℚ) := by norm_num [pyRound2]
  have hp : pyRound2 (1013.25 : ℚ) = (1013.25 : ℚ) := by norm_num [pyRound2]
  constructor
  · simp [largeTick, largeAppend, largeFlush, get_sensor_measurements, h0]
  · simp [largeTick, largeAppend, largeFlush, get_sensor_measurements, ht, hp]
    norm_num

/-! ## MQTT session lifecycle (source lines 139 to 190) -/

/-- Result of `reconnect_mqtt(client)` (source lines 150 to 158) run
against a finite prefix of `client.connect()` outcomes (`true` =
connect succeeded, `false` = it raised): the number of connect attempts
performed, the sleeps taken (5 seconds after each failure, before the
recursive call), and whether the function returned (`true`) or was
still retrying when the modelled prefix ran out (`false`). -/
structure ReconRun where
  attempts : Nat
  sleeps : List Nat
  returned : Bool
  deriving DecidableEq

/-- `reconnect_mqtt`: `try: client.connect()` — on success it returns;
on exception it logs, sleeps 5 seconds and calls itself. -/
def reconnect_mqtt : List Bool → ReconRun
  | [] => ⟨0, [], false⟩
  | ok :: rest =>
    if ok then ⟨1, [], true⟩
    else
      let r := reconnect_mqtt rest
      ⟨r.attempts + 1, 5 :: r.sleeps, r.returned⟩

/-- C2: `reconnect_mqtt` never gives up.  Against any number `n` of
consecutive connect failures it has performed exactly `n` attempts with
a 5-second sleep after each and has not returned (so for every `n` it
performs more than `n` attempts on the all-failing run, in particular
it keeps retrying past 5); and it returns to its caller only if some
connect attempt in the run succeeded. -/
theorem reconnect_mqtt_never_gives_up :
    (∀ n : Nat,
        reconnect_mqtt (List.replicate n false) =
          ⟨n, List.replicate n 5, false⟩) ∧
    (∀ outs : List Bool,
        (reconnect_mqtt outs).returned = false ∨ true ∈ outs) := by
  constructor
  · intro n
    induction n with
    | zero => rfl
    | succ m ih => simp [List.replicate_succ, reconnect_mqtt, ih]
  · intro outs
    induction outs with
    | nil => exact Or.inl rfl
    | cons ok rest ih =>
      by_cases hok : ok = true
      · exact Or.inr (by simp [hok])
      · rcases ih with h | h
        · exact Or.inl (by simp [reconnect_mqtt, hok, h])
        · exact Or.inr (by simp [h])

/-- Outcome of one iteration of the `connect_mqtt` retry loop (source
lines 174 to 186): the `MQTTClient(...)` constructor raises, or the
constructor succeeds and `client.connect()` raises, or both succeed. -/
inductive MqttAttempt where
  | ctorRaises
  | connectRaises
  | connectOk
  deriving DecidableEq

/-- What `connect_mqtt` produces for its caller: the
`ConnectionError("Failed to connect to MQTT broker")` raise, or a
returned client handle with the record of whether `connect()` ever
succeeded on it. -/
inductive MqttOutcome where
  | raisesConnectionError
  | returnsClient (connected : Bool)
  deriving DecidableEq

/-- Observable run of `connect_mqtt`: how many loop iterations entered
the `try` block, the 5-second sleeps taken, and the outcome. -/
structure MqttRun where
  attempts : Nat
  sleeps : List Nat
  outcome : MqttOutcome
  deriving DecidableEq

/-- The loop `while client is None and retry_count < 5:` of
`connect_mqtt`.  The state `client : Option Bool` is `none` while the
Python variable is `None`, and `some connected` once the constructor
has assigned it — crucially, the assignment happens before
`client.connect()` is called, so a connect failure leaves `client`
non-`None` with `connected = false`.  On any exception the handler
increments `retry_count` and sleeps 5 seconds.  `att k` is the outcome
of the iteration running with `retry_count = k`; the fuel `6` exceeds
the retry bound, so the loop always exits through its own condition. -/
def connectMqttLoop (att : Nat → MqttAttempt) :
    Nat → Option Bool → Nat → Nat → List Nat →
      Option Bool × Nat × List Nat
  | 0, client, _, iters, sleeps => (client, iters, sleeps)
  | fuel + 1, client, retry, iters, sleeps =>
    if client = none ∧ retry < 5 then
      match att retry with
      | .ctorRaises =>
        connectMqttLoop att fuel none (retry + 1) (iters + 1) (sleeps ++ [5])
      | .connectRaises =>
        connectMqttLoop att fuel (some false) (retry + 1) (iters + 1) (sleeps ++ [5])
      | .connectOk =>
        connectMqttLoop att fuel (some true) retry (iters + 1) sleeps
    else (client, iters, sleeps)

/-- `connect_mqtt()` (source lines 170 to 190): run the loop from
`client = None`, `retry_count = 0`; afterwards
`if client is None: raise ConnectionError(...)` else `return client`. -/
def connect_mqtt (att : Nat → MqttAttempt) : MqttRun :=
  match connectMqttLoop att 6 none 0 0 [] with
  | (none, iters, sleeps) => ⟨iters, sleeps, .raisesConnectionError⟩
  | (some c, iters, sleeps) => ⟨iters, sleeps, .returnsClient c⟩

/-- Evaluation of C1 at its failing input: when the `MQTTClient`
constructor succeeds but every `client.connect()` raises (broker
unreachable), `connect_mqtt` performs exactly one attempt, sleeps once,
and returns the never-connected client handle — no `ConnectionError` is
raised and no further attempts are made, because the constructor has
already made `client` non-`None` before `connect()` failed.  The
intended path — 5 attempts, 5-second sleeps, then the
`ConnectionError` raise — is reachable only if the constructor itself
raises on every iteration. -/
theorem connect_mqtt_returns_unconnected_client :
    connect_mqtt (fun _ => .connectRaises) =
        ⟨1, [5], .returnsClient false⟩ ∧
      connect_mqtt (fun _ => .ctorRaises) =
        ⟨5, [5, 5, 5, 5, 5], .raisesConnectionError⟩ := by
  constructor <;> rfl

/-- Result of one `send_mqtt(client, topic, data)` call (source lines
139 to 147): which payloads were handed to `client.publish`, the
`reconnect_mqtt` run delegated to on failure (if any), and whether an
exception escaped to the caller.  The whole body sits in
`try: … except Exception: log; reconnect_mqtt(client)`, so no
serialization or publish exception ever escapes; the failed payload is
not re-sent — `reconnect_mqtt` only reconnects. -/
structure SendRun (α : Type) where
  publishCalls : List α
  delegatedReconnect : Option ReconRun
  raisesToCaller : Bool

/-- `send_mqtt` on one payload.  `dumpsRaises` models `ujson.dumps`
raising (before any publish), `publishRaises` models `client.publish`
raising; `reconOuts` is the connect-outcome prefix consumed by the
delegated `reconnect_mqtt` when one of them raises. -/
def send_mqtt {α : Type} (data : α) (dumpsRaises publishRaises : Bool)
    (reconOuts : List Bool) : SendRun α :=
  if dumpsRaises then
    ⟨[], some (reconnect_mqtt reconOuts), false⟩
  else if publishRaises then
    ⟨[data], some (reconnect_mqtt reconOuts), false⟩
  else ⟨[data], none, false⟩

/-- C10: `send_mqtt` never raises to its caller; it delegates to
`reconnect_mqtt` exactly when serialization or publish raised; and the
payload is handed to `client.publish` at most once per call — the
failed payload is never re-published within the same call (the
delegated recovery performs `connect` attempts only). -/
theorem send_mqtt_never_raises {α : Type} (data : α)
    (dumpsRaises publishRaises : Bool) (reconOuts : List Bool) :
    (send_mqtt data dumpsRaises publishRaises reconOuts).raisesToCaller = false ∧
    (send_mqtt data dumpsRaises publishRaises reconOuts).publishCalls.length ≤ 1 ∧
    ((send_mqtt data dumpsRaises publishRaises reconOuts).delegatedReconnect =
        none ↔ (dumpsRaises = false ∧ publishRaises = false)) := by
  cases dumpsRaises <;> cases publishRaises <;> simp [send_mqtt]

end WeatherStation
